import Mathlib

/-!
Shallow embedding of `src/xpra/gtk/error.py` (the X11 error-trap transaction
manager of xpra) and proofs about it.

Python state (the module-global `trap = _ErrorManager()` instance, the Gdk
native-trap adapter, and the loggers) is modelled as an explicit `XState`
record threaded through every operation.  Python exceptions are modelled with
`Except PyExn`: a function that can raise returns `Except PyExn a × XState`,
where the state component records the side effects performed up to the point
the exception was raised (Python state changes persist across `raise`).
-/

/-- Severity of a log entry.  `log(...)` calls on an xpra `Logger` log at
debug level; `log.error(...)` logs at error level. -/
inductive LogLevel where
  | debug
  | error
deriving DecidableEq

/-- One emitted log entry.  Message text is abbreviated but the number and
severity of entries matches the source. -/
structure LogEntry where
  level : LogLevel
  msg : String
deriving DecidableEq

/-- Python exceptions that appear in `error.py`:
`XError` (the protocol-error class; it is constructed as `XError(code)` and
stores `get_X_error(code)` as its message — we carry the raw trapped code,
from which that message is computed by `get_X_error` below), and any other
exception (`AssertionError` from the `assert` statements, or an arbitrary
exception raised by the function run under protection), identified by its
type name. -/
inductive PyExn where
  | xerror (code : Int)
  | other (name : String)
deriving DecidableEq

/-- Decidable equality of `Except` results, used to evaluate concrete
runs. -/
instance {ε α : Type} [DecidableEq ε] [DecidableEq α] :
    DecidableEq (Except ε α) := fun a b =>
  match a, b with
  | Except.ok x, Except.ok y =>
      if h : x = y then isTrue (congrArg Except.ok h)
      else isFalse (fun hh => h (Except.ok.inj hh))
  | Except.error x, Except.error y =>
      if h : x = y then isTrue (congrArg Except.error h)
      else isFalse (fun hh => h (Except.error.inj hh))
  | Except.ok _, Except.error _ => isFalse (fun hh => Except.noConfusion hh)
  | Except.error _, Except.ok _ => isFalse (fun hh => Except.noConfusion hh)

/-- The process-wide state visible to `error.py`:
* `depth`: the `_ErrorManager.depth` counter (`trap.depth`);
* `traps`: the Gdk native trap stack, top first; each slot holds the error
  code recorded for that trap (`0` = no error, Xlib `Success`);
* `pending`: an error code reported by the X server for an earlier request
  but not yet delivered to the client — it is delivered by the next
  round-trip (`Gdk.flush`) to whatever trap is then topmost;
* `flushes`: how many times `Gdk.flush()` was called;
* `pops`: how many times `Gdk.error_trap_pop()` was called;
* `logs`: the log entries emitted so far. -/
structure XState where
  depth : Int
  traps : List Int
  pending : Option Int
  flushes : Nat
  pops : Nat
  logs : List LogEntry
deriving DecidableEq

/-- Append one log entry. -/
def pushLog (s : XState) (lv : LogLevel) (m : String) : XState :=
  { s with logs := s.logs ++ [⟨lv, m⟩] }

/-- Modelled from the spec: the Native Trap Adapter's `push_trap()`
(`Gdk.error_trap_push()` in the source, an external collaborator): pushes a
fresh trap with no recorded error. -/
def error_trap_push (s : XState) : XState :=
  { s with traps := 0 :: s.traps }

/-- Modelled from the spec: the Native Trap Adapter's `flush()`
(`Gdk.flush()` in the source, an external collaborator): a round trip that
delivers any pending server-reported error to the topmost trap (if that trap
has no recorded error yet; with no trap pushed the error goes to the global
handler and is lost to this component). -/
def gdk_flush (s : XState) : XState :=
  match s.pending, s.traps with
  | some c, t :: rest =>
      { s with pending := none,
               traps := (if t = 0 then c else t) :: rest,
               flushes := s.flushes + 1 }
  | some _, [] => { s with pending := none, flushes := s.flushes + 1 }
  | none, _ => { s with flushes := s.flushes + 1 }

/-- Modelled from the spec: the Native Trap Adapter's `pop_trap() -> code`
(`Gdk.error_trap_pop()` in the source, an external collaborator): removes the
topmost trap and returns the error code recorded in it (`0` when no error
was recorded, or when no trap was pushed). -/
def error_trap_pop (s : XState) : Int × XState :=
  match s.traps with
  | [] => (0, { s with pops := s.pops + 1 })
  | t :: rest => (t, { s with traps := rest, pops := s.pops + 1 })

/-- `_ErrorManager.Xenter`: `assert self.depth >= 0`, push a native trap,
increment the depth.  (`verify_main_thread` only logs, and the default-off
`XPRA_LOG_SYNC` / `LOG_NESTED_XTRAP` logging is omitted.) -/
def Xenter (s : XState) : Except PyExn Unit × XState :=
  if s.depth < 0 then (Except.error (PyExn.other "AssertionError"), s)
  else
    let s1 := error_trap_push s
    (Except.ok (), { s1 with depth := s1.depth + 1 })

/-- `_ErrorManager.Xexit(need_sync=True)`: `assert self.depth >= 0`,
decrement the depth, flush iff the new depth is `0` and `need_sync`, then pop
the native trap; a nonzero popped code raises `XError(code)`. -/
def Xexit (need_sync : Bool) (s : XState) : Except PyExn Unit × XState :=
  if s.depth < 0 then (Except.error (PyExn.other "AssertionError"), s)
  else
    let s1 : XState := { s with depth := s.depth - 1 }
    let s2 : XState := if s1.depth = 0 ∧ need_sync then gdk_flush s1 else s1
    let p := error_trap_pop s2
    if p.1 ≠ 0 then (Except.error (PyExn.xerror p.1), p.2) else (Except.ok (), p.2)

/-- `_ErrorManager.safe_x_exit`: `Xexit()` (with the default
`need_sync=True`), catching and logging any `XError`; other exceptions
propagate. -/
def safe_x_exit (s : XState) : Except PyExn Unit × XState :=
  match Xexit true s with
  | (Except.error (PyExn.xerror _), s1) =>
      (Except.ok (), pushLog s1 LogLevel.debug " XError detected while already in unwind; discarding")
  | r => r

/-- The `except Exception` block of `_ErrorManager._call`: log the failure,
call `Xexit(need_sync)` discarding any `XError` it raises (an exception of
another type raised by `Xexit` itself would replace the original, as in
Python), then re-raise the original exception `e`. -/
def exceptPath (need_sync : Bool) (e : PyExn) (s : XState) :
    Except PyExn α × XState :=
  let s0 := pushLog (pushLog s LogLevel.debug " _call failed") LogLevel.debug " _call exception"
  match Xexit need_sync s0 with
  | (Except.error (PyExn.xerror _), s1) =>
      (Except.error e, pushLog s1 LogLevel.debug " XError detected while already in unwind; discarding")
  | (Except.error e2, s1) => (Except.error e2, s1)
  | (Except.ok _, s1) => (Except.error e, s1)

/-- `_ErrorManager._call(need_sync, fun, args, kwargs)`: `Xenter()`, run the
function, and on the way out call `Xexit(need_sync)` exactly once; if the
function (or `Xenter`) raised, any `XError` from that exit is suppressed and
the original exception re-raised.  The Python `args`/`kwargs` are absorbed
into the closure `f`, which acts on the modelled state. -/
def _call (need_sync : Bool) (f : XState → Except PyExn α × XState)
    (s : XState) : Except PyExn α × XState :=
  match Xenter s with
  | (Except.error e, s1) => exceptPath need_sync e s1
  | (Except.ok _, s1) =>
    match f s1 with
    | (Except.error e, s2) => exceptPath need_sync e s2
    | (Except.ok v, s2) =>
      match Xexit need_sync s2 with
      | (Except.error e2, s3) => (Except.error e2, s3)
      | (Except.ok _, s3) => (Except.ok v, s3)

/-- `_ErrorManager.call_unsynced`. -/
def call_unsynced (f : XState → Except PyExn α × XState) (s : XState) :
    Except PyExn α × XState :=
  _call false f s

/-- `_ErrorManager.call_synced`. -/
def call_synced (f : XState → Except PyExn α × XState) (s : XState) :
    Except PyExn α × XState :=
  _call true f s

/-- `envbool("XPRA_SYNCHRONIZE", False)`: the always-force-full-
synchronization toggle, off by default. -/
def XPRA_SYNCHRONIZE : Bool := false

/-- `_ErrorManager.call`: the class body binds `call = call_synced` when
`XPRA_SYNCHRONIZE` else `call = call_unsynced`; the toggle is passed
explicitly here. -/
def call (synchronize : Bool) (f : XState → Except PyExn α × XState)
    (s : XState) : Except PyExn α × XState :=
  if synchronize then call_synced f s else call_unsynced f s

/-- `_ErrorManager.swallow_unsynced`: `call_unsynced`, returning `True` on
success and `False` (after a debug log) when an `XError` was raised; other
exceptions propagate. -/
def swallow_unsynced (f : XState → Except PyExn α × XState) (s : XState) :
    Except PyExn Bool × XState :=
  match call_unsynced f s with
  | (Except.ok _, s1) => (Except.ok true, s1)
  | (Except.error (PyExn.xerror _), s1) =>
      (Except.ok false, pushLog s1 LogLevel.debug " Ignoring X error")
  | (Except.error e, s1) => (Except.error e, s1)

/-- `_ErrorManager.swallow_synced`. -/
def swallow_synced (f : XState → Except PyExn α × XState) (s : XState) :
    Except PyExn Bool × XState :=
  match call_synced f s with
  | (Except.ok _, s1) => (Except.ok true, s1)
  | (Except.error (PyExn.xerror _), s1) =>
      (Except.ok false, pushLog s1 LogLevel.debug " Ignoring X error")
  | (Except.error e, s1) => (Except.error e, s1)

/-- `_ErrorManager.swallow`: `swallow_synced` when `XPRA_SYNCHRONIZE` else
`swallow_unsynced`. -/
def swallow (synchronize : Bool) (f : XState → Except PyExn α × XState)
    (s : XState) : Except PyExn Bool × XState :=
  if synchronize then swallow_synced f s else swallow_unsynced f s

/-- `_ErrorManager.assert_out`: `assert self.depth == 0`.  Raises
`AssertionError` when the depth is nonzero; performs no logging and no other
side effect. -/
def assert_out (s : XState) : Except PyExn Unit × XState :=
  if s.depth = 0 then (Except.ok (), s)
  else (Except.error (PyExn.other "AssertionError"), s)

/-- `XSyncContext.__exit__` (the `xsync` strict region): `trap.Xexit()`; an
`XError` raised by the exit is re-raised when no exception is in flight
(`e_typ is None`), and logged and dropped otherwise; finally `return False`
(never suppress the in-flight exception). -/
def xsync_exit (e_typ : Option PyExn) (s : XState) :
    Except PyExn Bool × XState :=
  match Xexit true s with
  | (Except.ok _, s1) => (Except.ok false, s1)
  | (Except.error (PyExn.xerror c), s1) =>
    match e_typ with
    | none => (Except.error (PyExn.xerror c), s1)
    | some _ =>
        (Except.ok false, pushLog s1 LogLevel.debug " Ignoring XError during Xexit")
  | (Except.error e2, s1) => (Except.error e2, s1)

/-- `XSwallowContext.__exit__` (the `xswallow` region): log any in-flight
exception at debug level, `trap.safe_x_exit()`, then `return True` — the
in-flight exception, whatever its type, is suppressed. -/
def xswallow_exit (e_typ : Option PyExn) (s : XState) :
    Except PyExn Bool × XState :=
  let s0 := match e_typ with
    | some _ => pushLog s LogLevel.debug " XError swallowed"
    | none => s
  match safe_x_exit s0 with
  | (Except.error e2, s1) => (Except.error e2, s1)
  | (Except.ok _, s1) => (Except.ok true, s1)

/-- Python `with` statement semantics for the three contexts of `error.py`
(whose `__enter__` is always `trap.Xenter()`): run the body between
`Xenter` and the supplied `__exit__`; when the body raises and `__exit__`
returns `True` the exception is suppressed and the statement completes
normally (yielding `none`); an exception raised by `__exit__` itself
propagates. -/
def runWith (exitFn : Option PyExn → XState → Except PyExn Bool × XState)
    (body : XState → Except PyExn α × XState) (s : XState) :
    Except PyExn (Option α) × XState :=
  match Xenter s with
  | (Except.error e, s1) => (Except.error e, s1)
  | (Except.ok _, s1) =>
    match body s1 with
    | (Except.ok v, s2) =>
      match exitFn none s2 with
      | (Except.error e2, s3) => (Except.error e2, s3)
      | (Except.ok _, s3) => (Except.ok (some v), s3)
    | (Except.error e, s2) =>
      match exitFn (some e) s2 with
      | (Except.error e2, s3) => (Except.error e2, s3)
      | (Except.ok true, s3) => (Except.ok none, s3)
      | (Except.ok false, s3) => (Except.error e, s3)

/-- `verify_sync(*args)`: when `trap.depth <= 0`, log an error-level
"unmanaged X11 context" diagnostic, the caller-supplied message (first
positional argument, when given), and the formatted stack trace (abbreviated
here to one entry), all at error level; otherwise do nothing.  Never
raises (the `raise Exception` line in the source is commented out). -/
def verify_sync (args : List String) (s : XState) :
    Except PyExn Unit × XState :=
  if s.depth ≤ 0 then
    let s1 := pushLog s LogLevel.error " Error: unmanaged X11 context"
    let s2 := match args with
      | [] => s1
      | a :: _ => pushLog s1 LogLevel.error a
    let s3 := pushLog s2 LogLevel.error " stack trace"
    (Except.ok (), s3)
  else (Except.ok (), s)

/-- Python `str.startswith(pre)`, modelled on the character list. -/
def startswith (s : String) (pre : String) : Bool :=
  List.isPrefixOf pre.data s.data

/-- Python `dict` membership/`get` over the association list built by
`build_xerror_to_name` (most recent assignment first). -/
def dictLookup : List (Int × String) → Int → Option String
  | [], _ => none
  | p :: rest, k => if p.1 = k then some p.2 else dictLookup rest k

/-- Modelled from the spec: the native binding layer consumed by
`get_X_error` — `xpra.x11.bindings.window.constants` (symbolic name →
code) and `X11CoreBindings().get_error_text` (textual description of a
code).  `available` is whether importing/querying that layer succeeds. -/
structure X11Bindings where
  constants : List (String × Int)
  get_error_text : Int → String

/-- The lazily-built `xerror_to_name` cache of `get_X_error`, as the pure
function of `constants` it memoises: `xerror_to_name[0] = "OK"`, then each
constant named `"Success"` or starting with `"Bad"` is assigned
(`dict` assignment = most recent entry wins, hence the prepend). -/
def build_xerror_to_name (cs : List (String × Int)) : List (Int × String) :=
  cs.foldl
    (fun m p =>
      if p.1 == "Success" || startswith p.1 "Bad" then (p.2, p.1) :: m else m)
    [(0, "OK")]

/-- The argument of `get_X_error`: an `int` error code or any other object
(modelled by its `str()`). -/
inductive XErrorArg where
  | int (n : Int)
  | str (s : String)

/-- `get_X_error(xerror)`: non-`int` arguments are stringified; otherwise,
under `log.trap_error` (which swallows any exception from the block and
falls through to `return str(xerror)`), import the native constants
(failing when the binding layer is unavailable), consult the
`xerror_to_name` cache (`xerror_to_name.get(xerror) or str(xerror)`), and
fall back to `X11CoreBindings().get_error_text(xerror)` for codes not in
the cache. -/
def get_X_error (available : Bool) (b : X11Bindings) (xerror : XErrorArg) :
    String :=
  match xerror with
  | XErrorArg.str t => t
  | XErrorArg.int n =>
    if available then
      match dictLookup (build_xerror_to_name b.constants) n with
      | some name => if name = "" then toString n else name
      | none => b.get_error_text n
    else toString n

/-- One step of a raw `Xenter`/`Xexit` trace. -/
inductive TraceOp where
  | enter
  | exit (need_sync : Bool)

/-- Run a sequence of `Xenter`/`Xexit` calls, threading the state.  The
state component of each call is kept even when the call raises: `Xexit`
performs all its side effects (decrement, flush, pop) before raising, and
the enclosing combinators and regions of `error.py` always continue to
their own matching exits while unwinding. -/
def runTrace : List TraceOp → XState → XState
  | [], s => s
  | TraceOp.enter :: rest, s => runTrace rest (Xenter s).2
  | TraceOp.exit b :: rest, s => runTrace rest (Xexit b s).2

/-- Proper nesting of a trace relative to a starting level: every `exit`
matches an earlier `enter` of the trace itself (the running relative level
is at least `1` before each `exit`). -/
def nestedOK : Int → List TraceOp → Bool
  | _, [] => true
  | c, TraceOp.enter :: rest => nestedOK (c + 1) rest
  | c, TraceOp.exit _ :: rest => decide (1 ≤ c) && nestedOK (c - 1) rest

/-- Net depth change of a trace: enters minus exits. -/
def balance : List TraceOp → Int
  | [] => 0
  | TraceOp.enter :: rest => balance rest + 1
  | TraceOp.exit _ :: rest => balance rest - 1

/-- Spec-side count: the number of exits of the trace that bring the depth
to `0` (starting from depth `d`) and have `need_sync = true`. -/
def countFlush : Int → List TraceOp → Nat
  | _, [] => 0
  | d, TraceOp.enter :: rest => countFlush (d + 1) rest
  | d, TraceOp.exit b :: rest =>
      (if d - 1 = 0 ∧ b then 1 else 0) + countFlush (d - 1) rest

/-- The empty starting state: depth `0`, no trap pushed, no pending error,
nothing logged. -/
def initState : XState := ⟨0, [], none, 0, 0, []⟩

/-- A protected function that raises `RuntimeError` without touching the
state. -/
def raiseRuntimeError : XState → Except PyExn Unit × XState :=
  fun s => (Except.error (PyExn.other "RuntimeError"), s)

/-- A protected function that returns successfully without touching the
state. -/
def okOp : XState → Except PyExn Unit × XState :=
  fun s => (Except.ok (), s)

/-- A starting state at depth `0` in which the server has already reported
error code `9` (`BadAlloc`) for an earlier request, still undelivered. -/
def pendingErrState : XState := ⟨0, [], some 9, 0, 0, []⟩

/-- A server operation whose X request fails with code `9` (`BadAlloc`):
it returns normally, the error being reported asynchronously by the server
and not delivered until the next round trip. -/
def badOp9 : XState → Except PyExn Unit × XState :=
  fun s => (Except.ok (), { s with pending := some 9 })

/-- A state at nesting depth `2` (two traps pushed), with nothing logged. -/
def depth2State : XState := ⟨2, [0, 0], none, 0, 0, []⟩

/-- A concrete native-binding environment for the C9 witness. -/
def testBindings : X11Bindings :=
  ⟨[("Success", 0), ("BadRequest", 1), ("BadWindow", 3), ("CurrentTime", 0)],
   fun n => "unknown code " ++ toString n⟩

theorem pushLog_depth (s : XState) (lv : LogLevel) (m : String) :
    (pushLog s lv m).depth = s.depth := rfl

theorem pushLog_pops (s : XState) (lv : LogLevel) (m : String) :
    (pushLog s lv m).pops = s.pops := rfl

theorem pushLog_flushes (s : XState) (lv : LogLevel) (m : String) :
    (pushLog s lv m).flushes = s.flushes := rfl

theorem gdk_flush_depth (s : XState) : (gdk_flush s).depth = s.depth := by
  rcases s with ⟨d, traps, pending, fl, po, lg⟩
  unfold gdk_flush
  cases pending <;> cases traps <;> rfl

theorem gdk_flush_flushes (s : XState) : (gdk_flush s).flushes = s.flushes + 1 := by
  rcases s with ⟨d, traps, pending, fl, po, lg⟩
  unfold gdk_flush
  cases pending <;> cases traps <;> rfl

theorem gdk_flush_pops (s : XState) : (gdk_flush s).pops = s.pops := by
  rcases s with ⟨d, traps, pending, fl, po, lg⟩
  unfold gdk_flush
  cases pending <;> cases traps <;> rfl

theorem error_trap_pop_depth (s : XState) :
    ((error_trap_pop s).2).depth = s.depth := by
  rcases s with ⟨d, traps, pending, fl, po, lg⟩
  unfold error_trap_pop
  cases traps <;> rfl

theorem error_trap_pop_flushes (s : XState) :
    ((error_trap_pop s).2).flushes = s.flushes := by
  rcases s with ⟨d, traps, pending, fl, po, lg⟩
  unfold error_trap_pop
  cases traps <;> rfl

theorem error_trap_pop_pops (s : XState) :
    ((error_trap_pop s).2).pops = s.pops + 1 := by
  rcases s with ⟨d, traps, pending, fl, po, lg⟩
  unfold error_trap_pop
  cases traps <;> rfl

theorem Xexit_snd (b : Bool) (s : XState) (h : 0 ≤ s.depth) :
    (Xexit b s).2 =
      (error_trap_pop
        (if s.depth - 1 = 0 ∧ b then gdk_flush { s with depth := s.depth - 1 }
         else { s with depth := s.depth - 1 })).2 := by
  simp only [Xexit, if_neg (not_lt.mpr h)]
  split <;> split <;> rfl

theorem Xexit_snd_depth (b : Bool) (s : XState) (h : 0 ≤ s.depth) :
    ((Xexit b s).2).depth = s.depth - 1 := by
  rw [Xexit_snd b s h, error_trap_pop_depth]
  split
  · rw [gdk_flush_depth]
  · rfl

theorem Xexit_snd_pops (b : Bool) (s : XState) (h : 0 ≤ s.depth) :
    ((Xexit b s).2).pops = s.pops + 1 := by
  rw [Xexit_snd b s h, error_trap_pop_pops]
  split
  · rw [gdk_flush_pops]
  · rfl

theorem Xexit_snd_flushes (b : Bool) (s : XState) (h : 0 ≤ s.depth) :
    ((Xexit b s).2).flushes =
      s.flushes + (if s.depth - 1 = 0 ∧ b then 1 else 0) := by
  rw [Xexit_snd b s h, error_trap_pop_flushes]
  split
  · rw [gdk_flush_flushes]
  · rfl

theorem Xexit_fst (b : Bool) (s : XState) (h : 0 ≤ s.depth) :
    (Xexit b s).1 = Except.ok () ∨
      ∃ c, c ≠ 0 ∧ (Xexit b s).1 = Except.error (PyExn.xerror c) := by
  simp only [Xexit, if_neg (not_lt.mpr h)]
  split <;> split
  · exact Or.inr ⟨_, by assumption, rfl⟩
  · exact Or.inl rfl
  · exact Or.inr ⟨_, by assumption, rfl⟩
  · exact Or.inl rfl

theorem Xenter_eq (s : XState) (h : 0 ≤ s.depth) :
    Xenter s = (Except.ok (), { s with traps := 0 :: s.traps, depth := s.depth + 1 }) := by
  simp only [Xenter, if_neg (not_lt.mpr h), error_trap_push]

theorem Xenter_snd_depth (s : XState) (h : 0 ≤ s.depth) :
    ((Xenter s).2).depth = s.depth + 1 := by
  rw [Xenter_eq s h]

theorem Xenter_snd_flushes (s : XState) (h : 0 ≤ s.depth) :
    ((Xenter s).2).flushes = s.flushes := by
  rw [Xenter_eq s h]

theorem exceptPath_spec {α : Type} (b : Bool) (e : PyExn) (s : XState)
    (h : 0 ≤ s.depth) :
    (@exceptPath α b e s).1 = Except.error e ∧
    ((@exceptPath α b e s).2).pops = s.pops + 1 := by
  have h0 : 0 ≤ (pushLog (pushLog s LogLevel.debug " _call failed")
      LogLevel.debug " _call exception").depth := h
  simp only [exceptPath]
  rcases hx : Xexit b (pushLog (pushLog s LogLevel.debug " _call failed")
      LogLevel.debug " _call exception") with ⟨r, s1⟩
  have hp : s1.pops = s.pops + 1 := by
    have hq := Xexit_snd_pops b _ h0
    rw [hx] at hq
    exact hq
  rcases Xexit_fst b _ h0 with hok | ⟨c, _, herr⟩
  · rw [hx] at hok
    simp only at hok
    subst hok
    exact ⟨rfl, hp⟩
  · rw [hx] at herr
    simp only at herr
    subst herr
    exact ⟨rfl, hp⟩

/-- C1: if the protected function raises a non-protocol exception inside
`_call` (hence inside `call_synced` / `call_unsynced`, which merely fix
`need_sync`), the native trap is still popped exactly once, any `XError`
that this pop produces is suppressed, and the caller observes the original
exception. -/
theorem call_exception_spec {α : Type} (need_sync : Bool)
    (f : XState → Except PyExn α × XState) (s s2 : XState) (name : String)
    (hs : 0 ≤ s.depth)
    (hf : f ((Xenter s).2) = (Except.error (PyExn.other name), s2))
    (hs2 : 0 ≤ s2.depth) :
    (_call need_sync f s).1 = Except.error (PyExn.other name) ∧
    ((_call need_sync f s).2).pops = s2.pops + 1 := by
  unfold _call
  rw [Xenter_eq s hs] at hf ⊢
  dsimp only at hf ⊢
  rw [hf]
  exact exceptPath_spec need_sync (PyExn.other name) s2 hs2

/-- Witness for C1 at a concrete input: a function that raises
`RuntimeError` from the freshly entered state. -/
theorem call_exception_spec_witness :
    (_call false raiseRuntimeError initState).1 =
      Except.error (PyExn.other "RuntimeError") ∧
    ((_call false raiseRuntimeError initState).2).pops =
      ((Xenter initState).2).pops + 1 :=
  call_exception_spec false raiseRuntimeError initState ((Xenter initState).2)
    "RuntimeError" (by decide) rfl (by decide)

theorem runTrace_invariant (t : List TraceOp) : ∀ (s : XState) (c : Int),
    0 ≤ c → c ≤ s.depth → nestedOK c t = true →
    (runTrace t s).depth = s.depth + balance t ∧
    (runTrace t s).flushes = s.flushes + countFlush s.depth t := by
  induction t with
  | nil =>
    intro s c _ _ _
    simp [runTrace, balance, countFlush]
  | cons op rest ih =>
    intro s c h0 hc hn
    cases op with
    | enter =>
      have hs : 0 ≤ s.depth := le_trans h0 hc
      simp only [nestedOK] at hn
      have hd1 : ((Xenter s).2).depth = s.depth + 1 := Xenter_snd_depth s hs
      obtain ⟨hd, hf⟩ := ih (Xenter s).2 (c + 1) (by omega) (by omega) hn
      simp only [runTrace, balance, countFlush]
      rw [hd, hf, hd1, Xenter_snd_flushes s hs]
      omega
    | exit b =>
      simp only [nestedOK, Bool.and_eq_true, decide_eq_true_eq] at hn
      obtain ⟨hc1, hn2⟩ := hn
      have hs : 0 ≤ s.depth := by omega
      have hd1 : ((Xexit b s).2).depth = s.depth - 1 := Xexit_snd_depth b s hs
      have hf1 := Xexit_snd_flushes b s hs
      obtain ⟨hd, hf⟩ := ih (Xexit b s).2 (c - 1) (by omega) (by omega) hn2
      simp only [runTrace, balance, countFlush]
      rw [hd, hf, hd1, hf1]
      by_cases hb : s.depth - 1 = 0 ∧ b = true
      · simp only [if_pos hb]
        omega
      · simp only [if_neg hb]
        omega

/-- C2: over any properly nested sequence of `Xenter`/`Xexit(need_sync)`
calls, `Gdk.flush` is called exactly once per exit that brings the depth to
`0` with `need_sync = true`; exits at nonzero depth never flush. -/
theorem flush_count_spec (t : List TraceOp) (s : XState)
    (hs : 0 ≤ s.depth) (hn : nestedOK 0 t = true) :
    (runTrace t s).flushes = s.flushes + countFlush s.depth t :=
  (runTrace_invariant t s 0 le_rfl hs hn).2

/-- Witness for C2: enter twice, exit unsynced at depth 2, exit synced at
depth 1 (reaching depth 0): exactly one flush. -/
theorem flush_count_spec_witness :
    (runTrace [TraceOp.enter, TraceOp.enter, TraceOp.exit false,
        TraceOp.exit true] initState).flushes =
      initState.flushes + countFlush initState.depth
        [TraceOp.enter, TraceOp.enter, TraceOp.exit false, TraceOp.exit true] :=
  flush_count_spec [TraceOp.enter, TraceOp.enter, TraceOp.exit false,
    TraceOp.exit true] initState (by decide) (by decide)

/-- C3: a balanced, properly nested sequence of `Xenter`/`Xexit` calls
returns the depth counter to its starting value `d ≥ 0`; moreover each
`Xexit` decrements the depth in its resulting state even when it raises
`XError` (the decrement happens before the raise). -/
theorem depth_restored_spec (t : List TraceOp) (s : XState)
    (hs : 0 ≤ s.depth) (hn : nestedOK 0 t = true) (hb : balance t = 0) :
    (runTrace t s).depth = s.depth ∧
    (∀ (b : Bool) (s1 : XState), 0 ≤ s1.depth →
      ((Xexit b s1).2).depth = s1.depth - 1) := by
  constructor
  · have hd := (runTrace_invariant t s 0 le_rfl hs hn).1
    omega
  · intro b s1 h1
    exact Xexit_snd_depth b s1 h1

/-- Witness for C3: a nested pair of regions starting at depth 1, with the
inner exit raising an `XError` (its trap slot holds code 9). -/
theorem depth_restored_spec_witness :
    (runTrace [TraceOp.enter, TraceOp.enter, TraceOp.exit true,
        TraceOp.exit false] ⟨1, [0], some 9, 0, 0, []⟩).depth = 1 ∧
    (∀ (b : Bool) (s1 : XState), 0 ≤ s1.depth →
      ((Xexit b s1).2).depth = s1.depth - 1) := by
  have h := depth_restored_spec [TraceOp.enter, TraceOp.enter,
      TraceOp.exit true, TraceOp.exit false] ⟨1, [0], some 9, 0, 0, []⟩
      (by decide) (by decide) (by decide)
  exact h

theorem safe_x_exit_spec (s : XState) (h : 0 ≤ s.depth) :
    (safe_x_exit s).1 = Except.ok () ∧
    ((safe_x_exit s).2).pops = s.pops + 1 := by
  unfold safe_x_exit
  rcases hx : Xexit true s with ⟨r, s1⟩
  have hp : s1.pops = s.pops + 1 := by
    have hq := Xexit_snd_pops true s h
    rw [hx] at hq
    exact hq
  rcases Xexit_fst true s h with hok | ⟨c, _, herr⟩
  · rw [hx] at hok
    simp only at hok
    subst hok
    exact ⟨rfl, hp⟩
  · rw [hx] at herr
    simp only at herr
    subst herr
    exact ⟨rfl, hp⟩

theorem xswallow_exit_spec (e_typ : Option PyExn) (s : XState)
    (h : 0 ≤ s.depth) :
    (xswallow_exit e_typ s).1 = Except.ok true ∧
    ((xswallow_exit e_typ s).2).pops = s.pops + 1 := by
  unfold xswallow_exit
  cases e_typ with
  | none =>
    dsimp only
    rcases hx : safe_x_exit s with ⟨r, s1⟩
    obtain ⟨h1, h2⟩ := safe_x_exit_spec s h
    rw [hx] at h1 h2
    simp only at h1
    subst h1
    exact ⟨rfl, h2⟩
  | some e =>
    dsimp only
    rcases hx : safe_x_exit (pushLog s LogLevel.debug " XError swallowed")
      with ⟨r, s1⟩
    obtain ⟨h1, h2⟩ := safe_x_exit_spec (pushLog s LogLevel.debug " XError swallowed") h
    rw [hx] at h1 h2
    simp only at h1
    subst h1
    exact ⟨rfl, h2⟩

/-- C4 counterexample: the claim says a non-protocol exception raised inside
an `xswallow` region propagates normally to the caller; but
`XSwallowContext.__exit__` returns `True` unconditionally, so a
`RuntimeError` raised by the block is suppressed and the `with` statement
completes normally instead of re-raising it. -/
theorem xswallow_counterexample :
    (runWith xswallow_exit raiseRuntimeError initState).1 = Except.ok none ∧
    (runWith xswallow_exit raiseRuntimeError initState).1 ≠
      Except.error (PyExn.other "RuntimeError") := by
  constructor
  · rfl
  · decide

/-- C4 amended: in an `xswallow` region, a protocol error detected at exit
is discarded for any injected error code (the block's result is returned
normally), and a non-protocol exception raised inside the block is *also*
suppressed (`__exit__` returns `True`): the region completes normally; in
both cases the native trap is released (popped) exactly once. -/
theorem xswallow_region_spec {α : Type} :
    (∀ (body : XState → Except PyExn α × XState) (s s2 : XState) (v : α),
       0 ≤ s.depth →
       body ((Xenter s).2) = (Except.ok v, s2) →
       0 ≤ s2.depth →
       (runWith xswallow_exit body s).1 = Except.ok (some v) ∧
       ((runWith xswallow_exit body s).2).pops = s2.pops + 1) ∧
    (∀ (body : XState → Except PyExn α × XState) (s s2 : XState) (e : PyExn),
       0 ≤ s.depth →
       body ((Xenter s).2) = (Except.error e, s2) →
       0 ≤ s2.depth →
       (runWith xswallow_exit body s).1 = Except.ok none ∧
       ((runWith xswallow_exit body s).2).pops = s2.pops + 1) := by
  constructor
  · intro body s s2 v hs hb hs2
    unfold runWith
    rw [Xenter_eq s hs] at hb ⊢
    dsimp only at hb ⊢
    rw [hb]
    dsimp only
    rcases hx : xswallow_exit none s2 with ⟨r, s3⟩
    obtain ⟨h1, h2⟩ := xswallow_exit_spec none s2 hs2
    rw [hx] at h1 h2
    simp only at h1
    subst h1
    exact ⟨rfl, h2⟩
  · intro body s s2 e hs hb hs2
    unfold runWith
    rw [Xenter_eq s hs] at hb ⊢
    dsimp only at hb ⊢
    rw [hb]
    dsimp only
    rcases hx : xswallow_exit (some e) s2 with ⟨r, s3⟩
    obtain ⟨h1, h2⟩ := xswallow_exit_spec (some e) s2 hs2
    rw [hx] at h1 h2
    simp only at h1
    subst h1
    exact ⟨rfl, h2⟩

/-- Witness for C4 (amended): a successful block over a pending error code
`9` (discarded at exit), and a block raising `RuntimeError` (suppressed). -/
theorem xswallow_region_spec_witness :
    ((runWith xswallow_exit okOp pendingErrState).1 = Except.ok (some ()) ∧
      ((runWith xswallow_exit okOp pendingErrState).2).pops =
        ((Xenter pendingErrState).2).pops + 1) ∧
    ((runWith xswallow_exit raiseRuntimeError pendingErrState).1 =
        Except.ok none ∧
      ((runWith xswallow_exit raiseRuntimeError pendingErrState).2).pops =
        ((Xenter pendingErrState).2).pops + 1) :=
  ⟨(@xswallow_region_spec Unit).1 okOp pendingErrState
      ((Xenter pendingErrState).2) () (by decide) rfl (by decide),
   (@xswallow_region_spec Unit).2 raiseRuntimeError pendingErrState
      ((Xenter pendingErrState).2) (PyExn.other "RuntimeError") (by decide)
      rfl (by decide)⟩

/-- C5: in an `xsync` strict region, a protocol error detected by the exit
is propagated as `XError` when the block completed normally; when the block
is already unwinding with another exception, the protocol error is logged
and discarded and the caller observes the original exception. -/
theorem xsync_region_spec {α : Type} :
    (∀ (body : XState → Except PyExn α × XState) (s s2 s3 : XState) (v : α)
        (c : Int),
       0 ≤ s.depth →
       body ((Xenter s).2) = (Except.ok v, s2) →
       Xexit true s2 = (Except.error (PyExn.xerror c), s3) →
       runWith xsync_exit body s = (Except.error (PyExn.xerror c), s3)) ∧
    (∀ (body : XState → Except PyExn α × XState) (s s2 s3 : XState)
        (e : String) (c : Int),
       0 ≤ s.depth →
       body ((Xenter s).2) = (Except.error (PyExn.other e), s2) →
       Xexit true s2 = (Except.error (PyExn.xerror c), s3) →
       runWith xsync_exit body s =
         (Except.error (PyExn.other e),
          pushLog s3 LogLevel.debug " Ignoring XError during Xexit")) := by
  constructor
  · intro body s s2 s3 v c hs hb hx
    unfold runWith
    rw [Xenter_eq s hs] at hb ⊢
    dsimp only at hb ⊢
    rw [hb]
    dsimp only
    unfold xsync_exit
    rw [hx]
  · intro body s s2 s3 e c hs hb hx
    unfold runWith
    rw [Xenter_eq s hs] at hb ⊢
    dsimp only at hb ⊢
    rw [hb]
    dsimp only
    unfold xsync_exit
    rw [hx]

/-- Witness for C5: a successful block and a `RuntimeError`-raising block,
both over an undelivered pending error code `9` that the exit's depth-0
flush delivers and the pop detects. -/
theorem xsync_region_spec_witness :
    runWith xsync_exit okOp pendingErrState =
      (Except.error (PyExn.xerror 9), ⟨0, [], none, 1, 1, []⟩) ∧
    runWith xsync_exit raiseRuntimeError pendingErrState =
      (Except.error (PyExn.other "RuntimeError"),
       pushLog (⟨0, [], none, 1, 1, []⟩ : XState) LogLevel.debug
         " Ignoring XError during Xexit") :=
  ⟨(@xsync_region_spec Unit).1 okOp pendingErrState
      ((Xenter pendingErrState).2) ⟨0, [], none, 1, 1, []⟩ () 9 (by decide)
      rfl (by decide),
   (@xsync_region_spec Unit).2 raiseRuntimeError pendingErrState
      ((Xenter pendingErrState).2) ⟨0, [], none, 1, 1, []⟩ "RuntimeError" 9
      (by decide) rfl (by decide)⟩

/-- C6 counterexample: three nested `call_unsynced` invocations from depth
`0`, only the innermost erroring.  `call_unsynced` exits with
`need_sync = False`, so the final depth-0 exit performs *no* flush (total
flush count `0`, not `1`) and no `XError` is raised to the outermost caller
(the pending error is still undelivered). -/
theorem nested_call_unsynced_counterexample :
    (call_unsynced (fun s1 => call_unsynced (fun s2 => call_unsynced badOp9 s2) s1)
        initState).1 = Except.ok () ∧
    ((call_unsynced (fun s1 => call_unsynced (fun s2 => call_unsynced badOp9 s2) s1)
        initState).2).flushes = 0 ∧
    ((call_unsynced (fun s1 => call_unsynced (fun s2 => call_unsynced badOp9 s2) s1)
        initState).2).pending = some 9 := by
  decide

/-- C6 amended: with three nested `call_synced` invocations from depth `0`
where only the innermost operation reports an error code: the two inner
exits (to depth 2 and depth 1) perform no flush, the final depth-0 exit
performs exactly one flush, and exactly one `XError` is raised to the
outermost caller (each of the three exits popping its trap exactly once). -/
theorem nested_call_synced_spec :
    ((call_synced (fun s2 => call_synced badOp9 s2) ((Xenter initState).2)).2).flushes
        = 0 ∧
    (call_synced (fun s1 => call_synced (fun s2 => call_synced badOp9 s2) s1)
        initState).1 = Except.error (PyExn.xerror 9) ∧
    ((call_synced (fun s1 => call_synced (fun s2 => call_synced badOp9 s2) s1)
        initState).2).flushes = 1 ∧
    ((call_synced (fun s1 => call_synced (fun s2 => call_synced badOp9 s2) s1)
        initState).2).pops = 3 ∧
    ((call_synced (fun s1 => call_synced (fun s2 => call_synced badOp9 s2) s1)
        initState).2).depth = 0 := by
  decide

/-- C7 counterexample: `assert_out` (the spec's `assert_idle`) called at
depth `2` raises `AssertionError`; it does not log an error-level
diagnostic (it logs nothing at all) and does not return normally. -/
theorem assert_out_counterexample :
    (assert_out depth2State).1 = Except.error (PyExn.other "AssertionError") ∧
    ((assert_out depth2State).2).logs = [] := by
  decide

/-- C7 amended: `assert_out` called while the depth counter is nonzero
raises `AssertionError` and has no other observable effect (in particular
it logs nothing); it succeeds silently only at depth `0`. -/
theorem assert_out_spec (s : XState) (h : s.depth ≠ 0) :
    assert_out s = (Except.error (PyExn.other "AssertionError"), s) := by
  unfold assert_out
  rw [if_neg h]

/-- Witness for C7 (amended) at depth `2`. -/
theorem assert_out_spec_witness :
    assert_out depth2State =
      (Except.error (PyExn.other "AssertionError"), depth2State) :=
  assert_out_spec depth2State (by decide)

/-- C8 counterexample: under the default configuration
(`XPRA_SYNCHRONIZE = False`), the generic `call` (and `swallow`) run a
successful no-op from depth `0` *without* any flush — whereas behaving "as
if `unsynced=False`" (`need_sync=True`, i.e. `call_synced`) would flush
exactly once at depth `0`. -/
theorem call_default_counterexample :
    ((call XPRA_SYNCHRONIZE okOp initState).2).flushes = 0 ∧
    ((swallow XPRA_SYNCHRONIZE okOp initState).2).flushes = 0 ∧
    ((call_synced okOp initState).2).flushes = 1 := by
  decide

/-- C8 amended: under the default configuration (`XPRA_SYNCHRONIZE` off),
the generic `call` and `swallow` entry points are the *unsynced* variants:
they behave as if called with `unsynced=True`, exiting with
`need_sync=False` (so no flush is performed at depth `0`). -/
theorem call_default_spec :
    (∀ (f : XState → Except PyExn Unit × XState) (s : XState),
       call XPRA_SYNCHRONIZE f s = call_unsynced f s ∧
       swallow XPRA_SYNCHRONIZE f s = swallow_unsynced f s ∧
       call_unsynced f s = _call false f s) ∧
    ((call XPRA_SYNCHRONIZE okOp initState).2).flushes = 0 := by
  constructor
  · intro f s
    exact ⟨rfl, rfl, rfl⟩
  · decide

theorem build_xerror_to_name_names_nonempty (cs : List (String × Int)) :
    ∀ p ∈ build_xerror_to_name cs, p.2 ≠ "" := by
  unfold build_xerror_to_name
  have haux : ∀ (l : List (String × Int)) (init : List (Int × String)),
      (∀ p ∈ init, p.2 ≠ "") →
      ∀ p ∈ l.foldl
        (fun m p =>
          if p.1 == "Success" || startswith p.1 "Bad" then (p.2, p.1) :: m
          else m) init, p.2 ≠ "" := by
    intro l
    induction l with
    | nil => intro init h p hp; exact h p hp
    | cons q rest ih =>
      intro init h p hp
      simp only [List.foldl_cons] at hp
      refine ih _ ?_ p hp
      intro r hr
      by_cases hq : (q.1 == "Success" || startswith q.1 "Bad") = true
      · rw [if_pos hq] at hr
        rcases List.mem_cons.mp hr with hr1 | hr2
        · subst hr1
          intro hcon
          simp only at hcon
          rw [hcon] at hq
          exact absurd hq (by decide)
        · exact h r hr2
      · rw [if_neg hq] at hr
        exact h r hr
  intro p hp
  refine haux cs [(0, "OK")] ?_ p hp
  intro r hr
  rcases List.mem_singleton.mp hr with rfl
  decide

theorem dictLookup_names_nonempty (m : List (Int × String))
    (hm : ∀ p ∈ m, p.2 ≠ "") (k : Int) (name : String)
    (h : dictLookup m k = some name) : name ≠ "" := by
  induction m with
  | nil => simp [dictLookup] at h
  | cons p rest ih =>
    simp only [dictLookup] at h
    by_cases hp : p.1 = k
    · rw [if_pos hp] at h
      have hpm : p.2 = name := Option.some.inj h
      subst hpm
      exact hm p (List.mem_cons_self p rest)
    · rw [if_neg hp] at h
      exact ih (fun r hr => hm r (List.mem_cons_of_mem p hr)) h

/-- C9: `get_X_error` on an `int` code returns the stringified code when
the native binding layer is unavailable; resolves codes found in the
lazily built `Success`/`Bad*` cache to their symbolic names; and falls
back to the native adapter's textual description for unrecognized codes. -/
theorem get_X_error_spec :
    (∀ (b : X11Bindings) (n : Int),
       get_X_error false b (XErrorArg.int n) = toString n) ∧
    (∀ (b : X11Bindings) (n : Int) (name : String),
       dictLookup (build_xerror_to_name b.constants) n = some name →
       get_X_error true b (XErrorArg.int n) = name) ∧
    (∀ (b : X11Bindings) (n : Int),
       dictLookup (build_xerror_to_name b.constants) n = none →
       get_X_error true b (XErrorArg.int n) = b.get_error_text n) := by
  refine ⟨fun b n => rfl, ?_, ?_⟩
  · intro b n name h
    have hne : name ≠ "" :=
      dictLookup_names_nonempty _ (build_xerror_to_name_names_nonempty b.constants)
        n name h
    unfold get_X_error
    dsimp only
    rw [h, if_pos (Eq.refl true)]
    dsimp only
    rw [if_neg hne]
  · intro b n h
    unfold get_X_error
    dsimp only
    rw [h, if_pos (Eq.refl true)]

/-- Witness for C9: code `3` resolves through the cache to `"BadWindow"`,
code `7` is unrecognized and uses the adapter's description, and any code
is stringified when the bindings are unavailable. -/
theorem get_X_error_spec_witness :
    get_X_error false testBindings (XErrorArg.int 3) = toString (3 : Int) ∧
    get_X_error true testBindings (XErrorArg.int 3) = "BadWindow" ∧
    get_X_error true testBindings (XErrorArg.int 7) =
      testBindings.get_error_text 7 :=
  ⟨get_X_error_spec.1 testBindings 3,
   get_X_error_spec.2.1 testBindings 3 "BadWindow" (by decide),
   get_X_error_spec.2.2 testBindings 7 (by decide)⟩

/-- C10: `verify_sync` never raises; at depth `> 0` it has no observable
effect, and at depth `≤ 0` it appends a nonempty batch of error-level log
entries (the "unmanaged X11 context" diagnostic, the caller's message when
supplied, and the stack trace) and still returns normally. -/
theorem verify_sync_spec (args : List String) (s : XState) :
    (verify_sync args s).1 = Except.ok () ∧
    (0 < s.depth → verify_sync args s = (Except.ok (), s)) ∧
    (s.depth ≤ 0 →
      ∃ extra, ((verify_sync args s).2).logs = s.logs ++ extra ∧
        extra ≠ [] ∧ ∀ x ∈ extra, x.level = LogLevel.error) := by
  refine ⟨?_, ?_, ?_⟩
  · unfold verify_sync
    split
    · cases args <;> rfl
    · rfl
  · intro h
    unfold verify_sync
    rw [if_neg (by omega)]
  · intro h
    unfold verify_sync
    rw [if_pos h]
    cases args with
    | nil =>
      refine ⟨[⟨LogLevel.error, " Error: unmanaged X11 context"⟩,
        ⟨LogLevel.error, " stack trace"⟩], ?_, by simp, ?_⟩
      · simp [pushLog]
      · intro x hx
        rcases List.mem_cons.mp hx with rfl | hx
        · rfl
        rcases List.mem_cons.mp hx with rfl | hx
        · rfl
        exact absurd hx (List.not_mem_nil x)
    | cons a rest =>
      refine ⟨[⟨LogLevel.error, " Error: unmanaged X11 context"⟩,
        ⟨LogLevel.error, a⟩, ⟨LogLevel.error, " stack trace"⟩], ?_, by simp, ?_⟩
      · simp [pushLog]
      · intro x hx
        rcases List.mem_cons.mp hx with rfl | hx
        · rfl
        rcases List.mem_cons.mp hx with rfl | hx
        · rfl
        rcases List.mem_cons.mp hx with rfl | hx
        · rfl
        exact absurd hx (List.not_mem_nil x)

/-- Witness for C10: `verify_sync` at depth `2` (no effect) and at depth
`0` with a message (error-level entries appended, no exception). -/
theorem verify_sync_spec_witness :
    verify_sync ["while moving a window"] depth2State =
      (Except.ok (), depth2State) ∧
    (∃ extra,
      ((verify_sync ["while moving a window"] initState).2).logs =
        initState.logs ++ extra ∧
      extra ≠ [] ∧ ∀ x ∈ extra, x.level = LogLevel.error) :=
  ⟨(verify_sync_spec ["while moving a window"] depth2State).2.1 (by decide),
   (verify_sync_spec ["while moving a window"] initState).2.2 (by decide)⟩
